import Mathlib

/-!
Shallow embedding of the hd_exporter service-registry and registration
lifecycle, translated from src/hadoop_exporter/exporter.py and
src/hadoop_exporter/utils.py.

Modelling conventions:
- Python Optional[str] values become Option String; the Python truthiness
  of strings (None and the empty string are falsy) is made explicit.
- Numeric YAML and environment values are modelled already parsed as Int
  (the sources wrap them in int(...)).
- Network responses and the outcomes of REGISTRY.register calls are
  supplied by explicit oracle arguments.
- A Python function that can raise to its caller returns PyOutcome;
  PyOutcome.raises means an uncaught exception propagates out.
- Attributes of Exporter that some code paths leave unassigned are
  modelled as Option fields whose value none means "never assigned".
-/

namespace HdExporter

/-- Outcome of running a piece of Python code: a value, or an uncaught
exception propagating to the caller. -/
inductive PyOutcome (α : Type) where
  | ok (a : α)
  | raises
deriving DecidableEq, Repr

/-- Truthiness of a Python Optional[str]: None and the empty string are
falsy, every other string is truthy. -/
def truthyStr : Option String → Bool
  | none => false
  | some s => s != ""

/-- Python x or y on Optional[str] operands, as used throughout
Exporter.__init__ (exporter.py lines 103, 132-153). -/
def pyOrStr (a b : Option String) : Option String :=
  if truthyStr a then a else b

/-- Python x or y where the right operand is a plain string (the
environment accessors with non-None defaults). -/
def pyOrS (a : Option String) (b : String) : String :=
  match a with
  | none => b
  | some s => if s == "" then b else s

/-- Python x or y for optional integers; the integer 0 is falsy. -/
def pyOrInt (a : Option Int) (b : Int) : Int :=
  match a with
  | none => b
  | some n => if n == 0 then b else n

/-- Python str.split on a comma, accumulator form. -/
def pySplitCommaAux : List Char → List Char → List String
  | cur, [] => [String.mk cur.reverse]
  | cur, c :: cs =>
    if c = ',' then String.mk cur.reverse :: pySplitCommaAux [] cs
    else pySplitCommaAux (c :: cur) cs

/-- Python str.split with separator a comma: the empty string splits to
a singleton list holding the empty string, matching CPython. -/
def pySplitComma (s : String) : List String :=
  pySplitCommaAux [] s.data

/-- Python str.lower, characterwise. -/
def pyLower (s : String) : String :=
  String.mk (s.data.map Char.toLower)

/-- exporter.py line 25. -/
def EXPORTER_CLUSTER_NAME_DEFAULT : String := "hadoop_cluster"

/-- exporter.py line 26. -/
def EXPORTER_ADDRESS_DEFAULT : String := "127.0.0.1"

/-- exporter.py line 27. -/
def EXPORTER_PORT_DEFAULT : Int := 9130

/-- exporter.py line 28. -/
def EXPORTER_PATH_DEFAULT : String := "/metrics"

/-- exporter.py line 29. -/
def EXPORTER_PERIOD_DEFAULT : Int := 30

/-- The ten collector classes imported in exporter.py lines 11-21,
modelled as a tagged enumeration. -/
inductive Collector where
  | HDFSNameNode
  | HDFSDataNode
  | HDFSJournalNode
  | YARNResourceManager
  | YARNNodeManager
  | MapredJobHistory
  | HBaseMaster
  | HBaseRegionServer
  | HiveServer2
  | HiveLlapDaemon
deriving DecidableEq, Repr

/-- Exporter.COLLECTOR_MAPPING (exporter.py lines 81-99). A pair outside
the table is a Python KeyError, modelled as none. The mapred job-history
collector is reachable only through the flag path, exactly as in the
source. -/
def COLLECTOR_MAPPING : String → String → Option Collector
  | "hdfs", "namenode" => some Collector.HDFSNameNode
  | "hdfs", "datanode" => some Collector.HDFSDataNode
  | "hdfs", "journalnode" => some Collector.HDFSJournalNode
  | "yarn", "resourcemanager" => some Collector.YARNResourceManager
  | "yarn", "nodemanager" => some Collector.YARNNodeManager
  | "hive", "hiveserver2" => some Collector.HiveServer2
  | "hive", "llapdaemon" => some Collector.HiveLlapDaemon
  | "hbase", "master" => some Collector.HBaseMaster
  | "hbase", "regionserver" => some Collector.HBaseRegionServer
  | _, _ => none

/-- Service (exporter.py lines 59-77). The field flag is initialised to
true by __init__ and means "not yet attached to REGISTRY". -/
structure Service where
  cluster : String
  url : String
  collector : Collector
  name : Option String := none
  flag : Bool := true
deriving DecidableEq, Repr

/-- Exporter._make_service (exporter.py lines 211-218). -/
def _make_service (cluster_name : String) (url : String) (collector : Collector) : Service :=
  { cluster := cluster_name, url := url, collector := collector, name := none, flag := true }

/-- One entry of the config-file jmx list, a YAML mapping. Fields read
with js.get never raise; fields read with js[...] raise KeyError when
absent, which the per-entry handler turns into a skip, so all fields are
Option here. -/
structure JmxEntry where
  cluster : Option String := none
  url : Option String := none
  component : Option String := none
  service : Option String := none
  name : Option String := none
deriving DecidableEq, Repr

/-- Exporter._parse_service (exporter.py lines 201-209) wrapped in the
per-entry try of lines 124-130: any KeyError from js[...] or from the
COLLECTOR_MAPPING lookup makes the entry parse to none (skipped). -/
def _parse_service (js : JmxEntry) : Option Service :=
  match js.url with
  | none => none
  | some url =>
    match js.component with
    | none => none
    | some comp =>
      match js.service with
      | none => none
      | some svc =>
        match COLLECTOR_MAPPING comp svc with
        | none => none
        | some coll =>
          some { cluster := js.cluster.getD EXPORTER_CLUSTER_NAME_DEFAULT,
                 url := url, collector := coll, name := js.name, flag := true }

/-- The loop over cfg.get jmx entries (exporter.py lines 123-130):
entries that parse are appended in order, entries whose parse raises are
logged and skipped. -/
def loadJmxList (jmx : List JmxEntry) : List Service :=
  jmx.filterMap _parse_service

/-- The server section of a config file; absent keys are none. Numeric
values are modelled already parsed. -/
structure ServerSection where
  address : Option String := none
  port : Option Int := none
  path : Option String := none
  period : Option Int := none
deriving DecidableEq, Repr

/-- A successfully parsed config file: optional server section and
optional jmx list (cfg.get with defaults in the source). -/
structure ConfigFile where
  server : Option ServerSection := none
  jmx : Option (List JmxEntry) := none
deriving DecidableEq, Repr

/-- Outcome of the open + yaml.safe_load of exporter.py lines 110-111:
either the load raised (unreadable file or YAML parse error), or it
produced a mapping. -/
inductive LoadResult where
  | raises
  | ok (cfg : ConfigFile)
deriving DecidableEq, Repr

/-- The argparse namespace of utils.parse_args (utils.py lines 177-310):
every flag defaults to None; port and period are parsed as int by
argparse. -/
structure Args where
  config : Option String := none
  cluster_name : Option String := none
  namenode_jmx : Option String := none
  datanode_jmx : Option String := none
  journalnode_jmx : Option String := none
  resourcemanager_jmx : Option String := none
  nodemanager_jmx : Option String := none
  mapred_jobhistory_jmx : Option String := none
  hmaster_jmx : Option String := none
  hregion_jmx : Option String := none
  hiveserver2_jmx : Option String := none
  hivellap_jmx : Option String := none
  auto_discovery : Option String := none
  discovery_whitelist : Option String := none
  address : Option String := none
  port : Option Int := none
  path : Option String := none
  period : Option Int := none
deriving DecidableEq, Repr

/-- The raw process environment: each variable is either set to a string
or unset. Numeric variables are modelled already parsed as Int, since the
source wraps every numeric use in int(...). -/
structure RawEnv where
  config : Option String := none
  cluster_name : Option String := none
  namenode_jmx : Option String := none
  datanode_jmx : Option String := none
  journalnode_jmx : Option String := none
  resourcemanager_jmx : Option String := none
  nodemanager_jmx : Option String := none
  mapred_jobhistory_jmx : Option String := none
  hmaster_jmx : Option String := none
  hregion_jmx : Option String := none
  hiveserver2_jmx : Option String := none
  hivellap_jmx : Option String := none
  auto_discovery : Option String := none
  discovery_whitelist : Option String := none
  address : Option String := none
  port : Option Int := none
  path : Option String := none
  period : Option Int := none
deriving DecidableEq, Repr

/-- ExporterEnv.EXPORTER_CLUSTER_NAME (exporter.py lines 34-35). -/
def RawEnv.EXPORTER_CLUSTER_NAME (e : RawEnv) : String :=
  e.cluster_name.getD EXPORTER_CLUSTER_NAME_DEFAULT

/-- ExporterEnv.EXPORTER_AUTO_DISCOVERY (exporter.py lines 48-49). -/
def RawEnv.EXPORTER_AUTO_DISCOVERY (e : RawEnv) : String :=
  e.auto_discovery.getD "false"

/-- ExporterEnv.EXPORTER_ADDRESS (exporter.py lines 52-53). -/
def RawEnv.EXPORTER_ADDRESS (e : RawEnv) : String :=
  e.address.getD EXPORTER_ADDRESS_DEFAULT

/-- ExporterEnv.EXPORTER_PORT (exporter.py line 54). -/
def RawEnv.EXPORTER_PORT (e : RawEnv) : Int :=
  e.port.getD EXPORTER_PORT_DEFAULT

/-- ExporterEnv.EXPORTER_PATH (exporter.py line 55). -/
def RawEnv.EXPORTER_PATH (e : RawEnv) : String :=
  e.path.getD EXPORTER_PATH_DEFAULT

/-- ExporterEnv.EXPORTER_PERIOD (exporter.py line 56). -/
def RawEnv.EXPORTER_PERIOD (e : RawEnv) : Int :=
  e.period.getD EXPORTER_PERIOD_DEFAULT

/-- The runtime value of self.discovery_whitelist: the initial empty
Python list assigned on line 105, or the Optional[str] assigned on the
flag path (line 141). -/
inductive WhitelistState where
  | initList
  | resolved (v : Option String)
deriving DecidableEq, Repr

/-- Exporter._check_whitelist (exporter.py lines 220-228), taking the
flag-path Optional[str] whitelist value as an explicit argument. -/
def _check_whitelist (discovery_whitelist : Option String) (service : String) : Bool :=
  match discovery_whitelist with
  | none => true
  | some wl =>
    if service ∈ pySplitComma wl then true else false

/-- The attribute state of an Exporter after __init__. A field holding
none (or sevices holding none) models an attribute that the constructor
never assigned, so that reading it later raises AttributeError. -/
structure ExporterState where
  config : Option String
  auto_discovery : Bool
  discovery_whitelist : WhitelistState
  address : Option String := none
  port : Option Int := none
  path : Option String := none
  period : Option Int := none
  sevices : Option (List Service) := none
deriving DecidableEq, Repr

/-- The ten whitelist-guarded appends of exporter.py lines 170-199, in
source order: nn, dn, jn, rm, nm, mrjh, hs2, hllap, hm, hr. Each service
kind is appended only when its resolved URL is truthy and its short code
passes _check_whitelist. -/
def flagServices (cluster_name : String) (dw : Option String)
    (namenode_jmx datanode_jmx journalnode_jmx resourcemanager_jmx nodemanager_jmx
     mapred_jobhistory_jmx hmaster_jmx hregion_jmx hiveserver2_jmx hivellap_jmx :
     Option String) : List Service :=
  (if truthyStr namenode_jmx && _check_whitelist dw "nn" then
    [_make_service cluster_name (namenode_jmx.getD "") Collector.HDFSNameNode] else []) ++
  (if truthyStr datanode_jmx && _check_whitelist dw "dn" then
    [_make_service cluster_name (datanode_jmx.getD "") Collector.HDFSDataNode] else []) ++
  (if truthyStr journalnode_jmx && _check_whitelist dw "jn" then
    [_make_service cluster_name (journalnode_jmx.getD "") Collector.HDFSJournalNode] else []) ++
  (if truthyStr resourcemanager_jmx && _check_whitelist dw "rm" then
    [_make_service cluster_name (resourcemanager_jmx.getD "") Collector.YARNResourceManager] else []) ++
  (if truthyStr nodemanager_jmx && _check_whitelist dw "nm" then
    [_make_service cluster_name (nodemanager_jmx.getD "") Collector.YARNNodeManager] else []) ++
  (if truthyStr mapred_jobhistory_jmx && _check_whitelist dw "mrjh" then
    [_make_service cluster_name (mapred_jobhistory_jmx.getD "") Collector.MapredJobHistory] else []) ++
  (if truthyStr hiveserver2_jmx && _check_whitelist dw "hs2" then
    [_make_service cluster_name (hiveserver2_jmx.getD "") Collector.HiveServer2] else []) ++
  (if truthyStr hivellap_jmx && _check_whitelist dw "hllap" then
    [_make_service cluster_name (hivellap_jmx.getD "") Collector.HiveLlapDaemon] else []) ++
  (if truthyStr hmaster_jmx && _check_whitelist dw "hm" then
    [_make_service cluster_name (hmaster_jmx.getD "") Collector.HBaseMaster] else []) ++
  (if truthyStr hregion_jmx && _check_whitelist dw "hr" then
    [_make_service cluster_name (hregion_jmx.getD "") Collector.HBaseRegionServer] else [])

/-- Exporter.__init__ (exporter.py lines 101-199). The load argument is
the outcome of the open + yaml.safe_load of the config file; it is only
consulted when a config path resolved to a truthy value. On the
load-error branch the constructor logs and assigns nothing further, so
address, port, path, period and sevices stay none there. -/
def Exporter.init (args : Args) (env : RawEnv) (load : LoadResult) : ExporterState :=
  let config := pyOrStr args.config env.config
  if truthyStr config then
    match load with
    | LoadResult.raises =>
      { config := config, auto_discovery := false,
        discovery_whitelist := WhitelistState.initList }
    | LoadResult.ok cfg =>
      let server := cfg.server.getD {}
      { config := config
        auto_discovery := false
        discovery_whitelist := WhitelistState.initList
        address := some (server.address.getD EXPORTER_ADDRESS_DEFAULT)
        port := some (server.port.getD EXPORTER_PORT_DEFAULT)
        path := some (server.path.getD env.EXPORTER_PATH)
        period := some (server.period.getD env.EXPORTER_PERIOD)
        sevices := some (loadJmxList (cfg.jmx.getD [])) }
  else
    let address := pyOrS args.address env.EXPORTER_ADDRESS
    let port := pyOrInt args.port env.EXPORTER_PORT
    let path := pyOrS args.path env.EXPORTER_PATH
    let period := pyOrInt args.period env.EXPORTER_PERIOD
    let auto_discovery :=
      pyLower (pyOrS args.auto_discovery env.EXPORTER_AUTO_DISCOVERY) == "true"
    let dw := pyOrStr args.discovery_whitelist env.discovery_whitelist
    let cluster_name := pyOrS args.cluster_name env.EXPORTER_CLUSTER_NAME
    let namenode_jmx := pyOrStr args.namenode_jmx env.namenode_jmx
    let datanode_jmx := pyOrStr args.datanode_jmx env.datanode_jmx
    let journalnode_jmx := pyOrStr args.journalnode_jmx env.journalnode_jmx
    let resourcemanager_jmx := pyOrStr args.resourcemanager_jmx env.resourcemanager_jmx
    let nodemanager_jmx := pyOrStr args.nodemanager_jmx env.nodemanager_jmx
    let mapred_jobhistory_jmx := pyOrStr args.mapred_jobhistory_jmx env.mapred_jobhistory_jmx
    let hmaster_jmx := pyOrStr args.hmaster_jmx env.hmaster_jmx
    let hregion_jmx := pyOrStr args.hregion_jmx env.hregion_jmx
    let hiveserver2_jmx := pyOrStr args.hiveserver2_jmx env.hiveserver2_jmx
    let hivellap_jmx := pyOrStr args.hivellap_jmx env.hivellap_jmx
    let namenode_jmx :=
      if auto_discovery then pyOrStr namenode_jmx (some "http://localhost:9870/jmx") else namenode_jmx
    let datanode_jmx :=
      if auto_discovery then pyOrStr datanode_jmx (some "http://localhost:9864/jmx") else datanode_jmx
    let journalnode_jmx :=
      if auto_discovery then pyOrStr journalnode_jmx (some "http://localhost:8480/jmx") else journalnode_jmx
    let resourcemanager_jmx :=
      if auto_discovery then pyOrStr resourcemanager_jmx (some "http://localhost:8088/jmx") else resourcemanager_jmx
    let nodemanager_jmx :=
      if auto_discovery then pyOrStr nodemanager_jmx (some "http://localhost:8042/jmx") else nodemanager_jmx
    let mapred_jobhistory_jmx :=
      if auto_discovery then pyOrStr mapred_jobhistory_jmx (some "http://localhost:19888/jmx") else mapred_jobhistory_jmx
    let hmaster_jmx :=
      if auto_discovery then pyOrStr hmaster_jmx (some "http://localhost:16010/jmx") else hmaster_jmx
    let hregion_jmx :=
      if auto_discovery then pyOrStr hregion_jmx (some "http://localhost:16030/jmx") else hregion_jmx
    let hiveserver2_jmx :=
      if auto_discovery then pyOrStr hiveserver2_jmx (some "http://localhost:10002/jmx") else hiveserver2_jmx
    let hivellap_jmx :=
      if auto_discovery then pyOrStr hivellap_jmx (some "http://localhost:15002/jmx") else hivellap_jmx
    { config := config
      auto_discovery := auto_discovery
      discovery_whitelist := WhitelistState.resolved dw
      address := some address
      port := some port
      path := some path
      period := some period
      sevices := some (flagServices cluster_name dw
        namenode_jmx datanode_jmx journalnode_jmx resourcemanager_jmx nodemanager_jmx
        mapred_jobhistory_jmx hmaster_jmx hregion_jmx hiveserver2_jmx hivellap_jmx) }

/-- Exceptions relevant to the scheduler loop: KeyboardInterrupt versus
any other exception raised by collector construction or
REGISTRY.register. -/
inductive Exn where
  | keyboardInterrupt
  | error
deriving DecidableEq, Repr

/-- How the register_prometheus call ended after a bounded number of
ticks: exit(0) after an interrupt, a normal return after the bare except
printed a traceback, or still inside the loop when the fuel ran out. -/
inductive LoopResult where
  | exitedZero
  | returnedAfterTraceback
  | stillRunning
deriving DecidableEq, Repr

/-- The for loop of one tick (exporter.py lines 238-239) with
Service.register inlined (lines 67-73). The oracle gives, per service
position, the outcome of the REGISTRY.register call when one is made:
none is success, some e an exception. On success the flag flips to
false; a raised exception leaves the current service and every later one
untouched and propagates. The Nat counts REGISTRY.register attempts. -/
def runTickAux (out : Nat → Option Exn) (i : Nat) :
    List Service → Option Exn × List Service × Nat
  | [] => (none, [], 0)
  | s :: rest =>
    if s.flag then
      match out i with
      | some e => (some e, s :: rest, 1)
      | none =>
        match runTickAux out (i + 1) rest with
        | (r, rest2, c) => (r, { s with flag := false } :: rest2, c + 1)
    else
      match runTickAux out (i + 1) rest with
      | (r, rest2, c) => (r, s :: rest2, c)

/-- One tick over the whole service list. -/
def runTick (out : Nat → Option Exn) (svcs : List Service) :
    Option Exn × List Service × Nat :=
  runTickAux out 0 svcs

/-- The while loop of Exporter.register_prometheus (exporter.py lines
235-246). The try wraps the entire while, so the first exception that
escapes a tick ends the loop: KeyboardInterrupt reaches exit(0), any
other exception reaches the bare except, prints a traceback and the
function returns. The Nat fuel bounds how many ticks may still run. -/
def loopAux (out : Nat → Nat → Option Exn) :
    Nat → List Service → Nat → Nat → LoopResult × List Service × Nat
  | _, svcs, calls, 0 => (LoopResult.stillRunning, svcs, calls)
  | t, svcs, calls, fuel + 1 =>
    match runTick (out t) svcs with
    | (some Exn.keyboardInterrupt, svcs2, c) => (LoopResult.exitedZero, svcs2, calls + c)
    | (some Exn.error, svcs2, c) => (LoopResult.returnedAfterTraceback, svcs2, calls + c)
    | (none, svcs2, c) => loopAux out (t + 1) svcs2 (calls + c) fuel

/-- Exporter.register_prometheus run for at most fuel ticks, returning
how it ended, the final registration states, and the total number of
REGISTRY.register attempts. -/
def register_prometheus (out : Nat → Nat → Option Exn) (svcs : List Service)
    (fuel : Nat) : LoopResult × List Service × Nat :=
  loopAux out 0 svcs 0 fuel

/-- An HTTP response as seen by the requests-based helpers: the status
code, and the result of response.json() on the body; none means the body
is empty or not JSON, so response.json() raises. -/
structure HttpResponse (α : Type) where
  status_code : Int
  body : Option α
deriving DecidableEq, Repr

/-- The parsed discovery document: a JSON object keyed by service short
code, each value an ordered list of records, each record an object
mapping hostnames to URL fragments. -/
abbrev TopologyDoc := List (String × List (List (String × String)))

/-- Python dict membership plus lookup for one record of the discovery
document: host in rec and rec of host. A None hostname is never a
member. -/
def lookupHost (host : Option String) (rec : List (String × String)) : Option String :=
  match host with
  | none => none
  | some h => (rec.find? (fun p => p.fst == h)).map (fun p => p.snd)

/-- Python dict.setdefault on the assoc-list model of node_info: insert
only when the key is not yet present. -/
def setdefault (m : List (String × String)) (k v : String) : List (String × String) :=
  if (m.find? (fun p => p.fst == k)).isSome then m else m ++ [(k, v)]

/-- The inner loop of get_node_info over one service kind: scan its node
records in order and setdefault the first fragment found under the local
hostname. -/
def scanRecords (host : Option String) (k : String) :
    List (List (String × String)) → List (String × String) → List (String × String)
  | [], acc => acc
  | rec :: rest, acc =>
    match lookupHost host rec with
    | some frag => scanRecords host k rest (setdefault acc k frag)
    | none => scanRecords host k rest acc

/-- The double loop of get_node_info (utils.py lines 162-167). -/
def buildNodeInfo (host : Option String) :
    TopologyDoc → List (String × String) → List (String × String)
  | [], acc => acc
  | (k, v) :: rest, acc => buildNodeInfo host rest (scanRecords host k v acc)

/-- utils.get_node_info (utils.py lines 137-174). The resp argument is
the outcome of the requests GET: none means the request raised (caught,
empty result). When a response arrives, a non-ok status only logs and
assigns an empty dict before execution falls through to response.json();
a body that is not JSON makes response.json() raise, and that exception
is not caught, so it propagates to the caller. -/
def get_node_info (host : Option String) (resp : Option (HttpResponse TopologyDoc)) :
    PyOutcome (List (String × String)) :=
  match resp with
  | none => PyOutcome.ok []
  | some r =>
    match r.body with
    | none => PyOutcome.raises
    | some result =>
      if result.isEmpty then PyOutcome.ok []
      else PyOutcome.ok (buildNodeInfo host result [])

/-- The parsed JMX document for get_metrics: a JSON object whose values
are bean lists, with beans kept opaque as strings. -/
abbrev JmxDoc := List (String × List String)

/-- utils.get_metrics (utils.py lines 46-72). As in get_node_info, the
non-ok status branch only logs and assigns an empty result before
falling through to response.json(): a non-JSON body raises to the
caller, and a body with a beans key is returned even on a non-ok
status. -/
def get_metrics (resp : Option (HttpResponse JmxDoc)) : PyOutcome (List String) :=
  match resp with
  | none => PyOutcome.ok []
  | some r =>
    match r.body with
    | none => PyOutcome.raises
    | some rlt =>
      if !rlt.isEmpty && ((rlt.find? (fun p => p.fst == "beans")).isSome) then
        PyOutcome.ok (((rlt.find? (fun p => p.fst == "beans")).map (fun p => p.snd)).getD [])
      else PyOutcome.ok []

/-- A sample namenode service used by concrete witnesses. -/
def svcNN : Service :=
  _make_service "hadoop_cluster" "http://localhost:9870/jmx" Collector.HDFSNameNode

/-- A sample datanode service used by concrete witnesses. -/
def svcDN : Service :=
  _make_service "hadoop_cluster" "http://localhost:9864/jmx" Collector.HDFSDataNode

/-- A well-formed jmx config entry. -/
def goodEntry : JmxEntry :=
  { cluster := some "c1", url := some "http://h/jmx",
    component := some "hdfs", service := some "namenode" }

/-- A second well-formed jmx config entry. -/
def goodEntry2 : JmxEntry :=
  { cluster := some "c1", url := some "http://h:8088/jmx",
    component := some "yarn", service := some "resourcemanager" }

/-- A jmx config entry whose component and service pair is not in
COLLECTOR_MAPPING. -/
def badEntry : JmxEntry :=
  { url := some "http://x/jmx", component := some "foo", service := some "bar" }

/-- An argparse namespace with every flag left at its default. -/
def argsEmpty : Args := {}

/-- An environment whose discovery whitelist is set to the empty string
while a namenode JMX URL is supplied. -/
def envC10 : RawEnv :=
  { discovery_whitelist := some "", namenode_jmx := some "http://h:9870/jmx" }

/-- Helper: against the empty-string whitelist only the empty code passes. -/
theorem check_whitelist_empty_false (code : String) (h : code ≠ "") :
    _check_whitelist (some "") code = false := by
  have hsp : pySplitComma "" = [""] := rfl
  simp [_check_whitelist, hsp, h]

/-- Helper: with the empty-string whitelist all ten guarded appends of
the flag path are skipped, whatever the resolved URLs are. -/
theorem flagServices_empty_whitelist (cluster : String)
    (u1 u2 u3 u4 u5 u6 u7 u8 u9 u10 : Option String) :
    flagServices cluster (some "") u1 u2 u3 u4 u5 u6 u7 u8 u9 u10 = [] := by
  simp [flagServices,
    check_whitelist_empty_false "nn" (by decide),
    check_whitelist_empty_false "dn" (by decide),
    check_whitelist_empty_false "jn" (by decide),
    check_whitelist_empty_false "rm" (by decide),
    check_whitelist_empty_false "nm" (by decide),
    check_whitelist_empty_false "mrjh" (by decide),
    check_whitelist_empty_false "hs2" (by decide),
    check_whitelist_empty_false "hllap" (by decide),
    check_whitelist_empty_false "hm" (by decide),
    check_whitelist_empty_false "hr" (by decide)]

/-- Helper: a tick over services that all still carry flag = true, with
every REGISTRY.register call succeeding, attaches each service once. -/
theorem runTickAux_allTrue (out : Nat → Option Exn) (svcs : List Service)
    (hflag : ∀ s ∈ svcs, s.flag = true) (hout : ∀ j, out j = none) :
    ∀ i, runTickAux out i svcs
      = (none, svcs.map (fun s => { s with flag := false }), svcs.length) := by
  induction svcs with
  | nil => intro i; rfl
  | cons s rest ih =>
    intro i
    have hs : s.flag = true := hflag s (List.mem_cons_self s rest)
    have hrest : ∀ x ∈ rest, x.flag = true :=
      fun x hx => hflag x (List.mem_cons_of_mem s hx)
    simp [runTickAux, hs, hout i, ih hrest (i + 1)]

/-- Helper: a tick over services that are all already attached makes no
REGISTRY.register call and changes nothing. -/
theorem runTickAux_allFalse (out : Nat → Option Exn) (svcs : List Service)
    (hflag : ∀ s ∈ svcs, s.flag = false) :
    ∀ i, runTickAux out i svcs = (none, svcs, 0) := by
  induction svcs with
  | nil => intro i; rfl
  | cons s rest ih =>
    intro i
    have hs : s.flag = false := hflag s (List.mem_cons_self s rest)
    have hrest : ∀ x ∈ rest, x.flag = false :=
      fun x hx => hflag x (List.mem_cons_of_mem s hx)
    simp [runTickAux, hs, ih hrest (i + 1)]

/-- Helper: once every registration is attached, any number of further
ticks leaves the loop running with no further attach attempts. -/
theorem loopAux_allFalse (out : Nat → Nat → Option Exn) (svcs : List Service)
    (hflag : ∀ s ∈ svcs, s.flag = false) :
    ∀ fuel t calls, loopAux out t svcs calls fuel = (LoopResult.stillRunning, svcs, calls) := by
  intro fuel
  induction fuel with
  | zero => intro t calls; rfl
  | succ n ih =>
    intro t calls
    simp [loopAux, runTick, runTickAux_allFalse (out t) svcs hflag 0, ih]

/-- Helper: when the services before position pre.length all attach
successfully and the call for the service at that position raises, the
tick stops there: the earlier services are attached, the raising service
and all later ones are untouched, and pre.length + 1 attach attempts
were made. -/
theorem runTickAux_raise (out : Nat → Option Exn) (s : Service) (post : List Service)
    (e : Exn) (hs : s.flag = true) :
    ∀ (pre : List Service) (i : Nat), (∀ p ∈ pre, p.flag = true) →
      (∀ j, j < pre.length → out (i + j) = none) →
      out (i + pre.length) = some e →
      runTickAux out i (pre ++ s :: post)
        = (some e, pre.map (fun p => { p with flag := false }) ++ s :: post,
           pre.length + 1) := by
  intro pre
  induction pre with
  | nil =>
    intro i _ _ he
    simp only [List.length_nil, Nat.add_zero] at he
    simp [runTickAux, hs, he]
  | cons p rest ih =>
    intro i hpre hout he
    have hp : p.flag = true := hpre p (List.mem_cons_self p rest)
    have hrest : ∀ x ∈ rest, x.flag = true :=
      fun x hx => hpre x (List.mem_cons_of_mem p hx)
    have hout0 : out i = none := by
      have h0 := hout 0 (by simp)
      simpa using h0
    have hout2 : ∀ j, j < rest.length → out (i + 1 + j) = none := by
      intro j hj
      have hlt : j + 1 < (p :: rest).length := by simp; omega
      have hh := hout (j + 1) hlt
      have harith : i + (j + 1) = i + 1 + j := by omega
      rwa [harith] at hh
    have he2 : out (i + 1 + rest.length) = some e := by
      have harith : i + (p :: rest).length = i + 1 + rest.length := by simp; omega
      rwa [harith] at he
    simp [runTickAux, hp, hout0, ih (i + 1) hrest hout2 he2]

/-- C6 (confirmed): _check_whitelist returns true for every short code
when no whitelist is configured (discovery_whitelist is None), and
otherwise returns true exactly when the code is a literal element of the
whitelist split on commas, with exact case-sensitive string matching and
no wildcard handling. -/
theorem C6_check_whitelist :
    (∀ code : String, _check_whitelist none code = true) ∧
    (∀ wl code : String,
      _check_whitelist (some wl) code = true ↔ code ∈ pySplitComma wl) := by
  refine ⟨fun code => rfl, fun wl code => ?_⟩
  by_cases h : code ∈ pySplitComma wl <;> simp [_check_whitelist, h]

/-- C1 (code bug, evaluated at the failing input): when a config path is
provided and loading it raises, Exporter.__init__ logs the error but
assigns none of address, port, path, period or sevices, so later use of
the exporter raises AttributeError instead of working from the
flag/environment resolution; the same arguments without a config file
resolve every field. The claimed fallback therefore does not happen. -/
theorem C1_code_bug_eval :
    (Exporter.init { config := some "/etc/exporter.yaml" } {} LoadResult.raises).address = none ∧
    (Exporter.init { config := some "/etc/exporter.yaml" } {} LoadResult.raises).port = none ∧
    (Exporter.init { config := some "/etc/exporter.yaml" } {} LoadResult.raises).path = none ∧
    (Exporter.init { config := some "/etc/exporter.yaml" } {} LoadResult.raises).period = none ∧
    (Exporter.init { config := some "/etc/exporter.yaml" } {} LoadResult.raises).sevices = none ∧
    (Exporter.init {} {} LoadResult.raises).address = some EXPORTER_ADDRESS_DEFAULT ∧
    (Exporter.init {} {} LoadResult.raises).port = some EXPORTER_PORT_DEFAULT ∧
    (Exporter.init {} {} LoadResult.raises).path = some EXPORTER_PATH_DEFAULT ∧
    (Exporter.init {} {} LoadResult.raises).period = some EXPORTER_PERIOD_DEFAULT ∧
    (Exporter.init {} {} LoadResult.raises).sevices = some [] := by decide

/-- C4 (counterexample): with a config file whose server section lacks
the path key and an environment that sets EXPORTER_PATH, the resolved
path is the environment value, not the built-in default, so the claim
that the environment is never consulted for the four server fields is
false. -/
theorem C4_counterexample :
    (Exporter.init { config := some "conf.yml" } { path := some "/envpath" }
        (LoadResult.ok { server := some {}, jmx := some [] })).path
      = some "/envpath" ∧
    ("/envpath" : String) ≠ EXPORTER_PATH_DEFAULT := by decide

/-- C4 (amended): for every config file that loads successfully, address
and port default to the built-in defaults when absent, while path and
period default to the environment-derived values EXPORTER_PATH and
EXPORTER_PERIOD; CLI flag values are never consulted for any of the four
fields, as the right-hand sides do not mention args. -/
theorem C4_amended_file_mode (args : Args) (env : RawEnv) (cfg : ConfigFile)
    (h : truthyStr (pyOrStr args.config env.config) = true) :
    (Exporter.init args env (LoadResult.ok cfg)).address
      = some ((cfg.server.getD {}).address.getD EXPORTER_ADDRESS_DEFAULT) ∧
    (Exporter.init args env (LoadResult.ok cfg)).port
      = some ((cfg.server.getD {}).port.getD EXPORTER_PORT_DEFAULT) ∧
    (Exporter.init args env (LoadResult.ok cfg)).path
      = some ((cfg.server.getD {}).path.getD env.EXPORTER_PATH) ∧
    (Exporter.init args env (LoadResult.ok cfg)).period
      = some ((cfg.server.getD {}).period.getD env.EXPORTER_PERIOD) := by
  simp [Exporter.init, h]

/-- C4 witness: the amended statement applied at a concrete config file
and environment. -/
theorem C4_amended_witness :
    truthyStr (pyOrStr ({ config := some "conf.yml" } : Args).config ({} : RawEnv).config) = true ∧
    (Exporter.init { config := some "conf.yml" } {} (LoadResult.ok {})).path
      = some ((({} : ConfigFile).server.getD {}).path.getD (({} : RawEnv).EXPORTER_PATH)) :=
  ⟨by decide,
   (C4_amended_file_mode { config := some "conf.yml" } {} {} (by decide)).2.2.1⟩

/-- C5 (counterexample): the flag is set (to the empty string) and the
environment variable is set, yet the resolved namenode JMX value is the
environment value, not the flag value: Python or tests truthiness, not
presence, so the claim that a set flag always wins is false. -/
theorem C5_counterexample :
    (some "" : Option String).isSome = true ∧
    pyOrStr (some "") (some "http://envhost:9870/jmx") = some "http://envhost:9870/jmx" ∧
    (Exporter.init { namenode_jmx := some "" }
        { namenode_jmx := some "http://envhost:9870/jmx" } LoadResult.raises).sevices
      = some [_make_service "hadoop_cluster" "http://envhost:9870/jmx" Collector.HDFSNameNode] ∧
    (some "http://envhost:9870/jmx" : Option String) ≠ some "" := by decide

/-- C5 (amended): per field, the resolved value is the flag value when
the flag is set to a non-empty string; when the flag is unset or set to
the empty string, it is the environment value when the variable is set,
and otherwise none, since pyOrStr then returns its right operand
unchanged. -/
theorem C5_amended_flag_env (flag envv : Option String) :
    (∀ s : String, flag = some s → s ≠ "" → pyOrStr flag envv = flag) ∧
    (flag = none ∨ flag = some "" → pyOrStr flag envv = envv) := by
  constructor
  · intro s hsome hne
    subst hsome
    simp [pyOrStr, truthyStr, hne]
  · rintro (h | h) <;> subst h <;> simp [pyOrStr, truthyStr]

/-- C5 witness: the amended statement applied at concrete flag and
environment values. -/
theorem C5_amended_witness :
    pyOrStr (some "http://flag:9870/jmx") (some "http://env:9870/jmx")
      = some "http://flag:9870/jmx" ∧
    pyOrStr none (some "http://env:9870/jmx") = some "http://env:9870/jmx" :=
  ⟨(C5_amended_flag_env (some "http://flag:9870/jmx") (some "http://env:9870/jmx")).1
      "http://flag:9870/jmx" rfl (by decide),
   (C5_amended_flag_env none (some "http://env:9870/jmx")).2 (Or.inl rfl)⟩

/-- C7 (code bug, evaluated at the failing inputs): a non-success
discovery response with an empty or non-JSON body makes get_node_info
raise to its caller, and a non-success response whose JSON body lists
the local hostname yields a non-empty mapping, both contradicting the
claim that such responses give an empty mapping without raising. -/
theorem C7_code_bug_eval :
    get_node_info (some "host1") (some { status_code := 500, body := none })
      = PyOutcome.raises ∧
    get_node_info (some "host1")
        (some { status_code := 500,
                body := some [("nn", [[("host1", "http://host1:9870/jmx")]])] })
      = PyOutcome.ok [("nn", "http://host1:9870/jmx")] := by decide

/-- C8 (code bug, evaluated at the failing inputs): a non-success JMX
response whose body parses to an object with a beans key returns that
beans list rather than the empty list, and a non-success response with a
non-JSON body makes get_metrics raise, both contradicting the claim that
a non-success status yields the empty metric list without exception. -/
theorem C8_code_bug_eval :
    get_metrics (some { status_code := 500, body := some [("beans", ["bean1"])] })
      = PyOutcome.ok ["bean1"] ∧
    get_metrics (some { status_code := 500, body := none }) = PyOutcome.raises := by decide

/-- C9 (confirmed): a jmx config entry whose component and service pair
is missing from COLLECTOR_MAPPING is skipped and contributes no service,
while every other entry of the list is still parsed and added in
order. -/
theorem C9_unknown_entry_skipped (l1 l2 : List JmxEntry) (e : JmxEntry)
    (comp svc : String) (hc : e.component = some comp) (hs : e.service = some svc)
    (hm : COLLECTOR_MAPPING comp svc = none) :
    loadJmxList (l1 ++ e :: l2) = loadJmxList l1 ++ loadJmxList l2 := by
  have hpe : _parse_service e = none := by
    cases hu : e.url with
    | none => simp [_parse_service, hu]
    | some url => simp [_parse_service, hu, hc, hs, hm]
  simp [loadJmxList, List.filterMap_append, List.filterMap_cons, hpe]

/-- C9 witness: a list with one unknown entry between two known ones
loads to exactly the services of the known entries. -/
theorem C9_witness :
    COLLECTOR_MAPPING "foo" "bar" = none ∧
    loadJmxList ([goodEntry] ++ badEntry :: [goodEntry2])
      = loadJmxList [goodEntry] ++ loadJmxList [goodEntry2] :=
  ⟨by decide,
   C9_unknown_entry_skipped [goodEntry] [goodEntry2] badEntry "foo" "bar" rfl rfl rfl⟩

/-- C10 (confirmed): on the flag/environment path, when only the
environment sets the discovery whitelist and sets it to the empty
string, the resolved whitelist is the empty string, every non-empty
short code fails _check_whitelist, and the service list resolves empty
whatever JMX URLs were supplied, unlike the unset whitelist which allows
every code. -/
theorem C10_empty_whitelist_blocks_all (args : Args) (env : RawEnv) (load : LoadResult)
    (hcfg : truthyStr (pyOrStr args.config env.config) = false)
    (hadw : args.discovery_whitelist = none)
    (henv : env.discovery_whitelist = some "") :
    (Exporter.init args env load).discovery_whitelist
      = WhitelistState.resolved (some "") ∧
    (Exporter.init args env load).sevices = some [] ∧
    (∀ code : String, code ≠ "" → _check_whitelist (some "") code = false) := by
  have hdw : pyOrStr args.discovery_whitelist env.discovery_whitelist = some "" := by
    rw [hadw, henv]
    decide
  refine ⟨?_, ?_, fun code hc => check_whitelist_empty_false code hc⟩
  · simp [Exporter.init, hcfg, hdw]
  · simp [Exporter.init, hcfg, hdw, flagServices_empty_whitelist]

/-- C10 witness: the statement applied with empty flags and an
environment that sets the whitelist to the empty string while supplying
a namenode URL. -/
theorem C10_witness :
    truthyStr (pyOrStr argsEmpty.config envC10.config) = false ∧
    (Exporter.init argsEmpty envC10 LoadResult.raises).sevices = some [] :=
  ⟨by decide,
   (C10_empty_whitelist_blocks_all argsEmpty envC10 LoadResult.raises
      (by decide) rfl rfl).2.1⟩

/-- C3 (confirmed): with a fixed registration list that starts
unattached and every REGISTRY.register call succeeding, running the tick
body N times for any N at least 1 makes exactly one register call per
service, flips every flag exactly once on the first tick, and later
ticks skip all of them, leaving the loop still running. -/
theorem C3_idempotent_attach (svcs : List Service) (N : Nat) (hN : 1 ≤ N)
    (hflag : ∀ s ∈ svcs, s.flag = true) :
    register_prometheus (fun _ _ => none) svcs N
      = (LoopResult.stillRunning,
         svcs.map (fun s => { s with flag := false }), svcs.length) := by
  obtain ⟨m, rfl⟩ : ∃ m, N = m + 1 := ⟨N - 1, by omega⟩
  have hfalse : ∀ s ∈ svcs.map (fun s => { s with flag := false }), s.flag = false := by
    intro s hsm
    obtain ⟨x, _, rfl⟩ := List.mem_map.mp hsm
    rfl
  simp [register_prometheus, loopAux, runTick,
    runTickAux_allTrue (fun _ => none) svcs hflag (fun _ => rfl) 0,
    loopAux_allFalse (fun _ _ => none) _ hfalse m]

/-- C3 witness: two fresh registrations, two ticks, two attach calls in
total and both flags flipped once. -/
theorem C3_idempotent_attach_witness :
    1 ≤ 2 ∧
    register_prometheus (fun _ _ => none) [svcNN, svcDN] 2
      = (LoopResult.stillRunning,
         [svcNN, svcDN].map (fun s => { s with flag := false }),
         ([svcNN, svcDN] : List Service).length) :=
  ⟨by decide, C3_idempotent_attach [svcNN, svcDN] 2 (by decide) (by decide)⟩

/-- C2 (counterexample): with one unattached service whose attach call
raises a non-interrupt exception, register_prometheus ends after a
single attach attempt even with fuel for five ticks: the loop is neither
still running nor ended by an interrupt, and the failed registration is
never retried, so the claim that the loop keeps running and retries on
the next tick is false. -/
theorem C2_counterexample :
    register_prometheus (fun _ _ => some Exn.error) [svcNN] 5
      = (LoopResult.returnedAfterTraceback, [svcNN], 1) ∧
    LoopResult.returnedAfterTraceback ≠ LoopResult.exitedZero ∧
    LoopResult.returnedAfterTraceback ≠ LoopResult.stillRunning := by decide

/-- C2 (amended): an exception raised inside a tick is caught by the
handlers around the whole while loop, so it never propagates, and the
registration whose attach raised keeps flag unchanged together with all
later ones; but because the try wraps the entire loop, the loop
terminates at that tick instead of retrying: a KeyboardInterrupt reaches
exit(0) and any other exception makes the function print a traceback and
return, after pre.length + 1 attach attempts in total however much fuel
remained. -/
theorem C2_amended_tick_exception_terminates (out : Nat → Nat → Option Exn)
    (pre post : List Service) (s : Service) (fuel : Nat) (hf : 1 ≤ fuel) (e : Exn)
    (hpre : ∀ p ∈ pre, p.flag = true)
    (hout : ∀ j, j < pre.length → out 0 j = none)
    (hs : s.flag = true)
    (he : out 0 pre.length = some e) :
    register_prometheus out (pre ++ s :: post) fuel
      = ((if e = Exn.keyboardInterrupt then LoopResult.exitedZero
          else LoopResult.returnedAfterTraceback),
         pre.map (fun p => { p with flag := false }) ++ s :: post,
         pre.length + 1) := by
  obtain ⟨m, rfl⟩ : ∃ m, fuel = m + 1 := ⟨fuel - 1, by omega⟩
  have hr := runTickAux_raise (out 0) s post e hs pre 0
    (by intro p hp; exact hpre p hp)
    (by intro j hj; simpa using hout j hj)
    (by simpa using he)
  cases e with
  | keyboardInterrupt => simp [register_prometheus, loopAux, runTick, hr]
  | error => simp [register_prometheus, loopAux, runTick, hr]

/-- C2 witness: the amended statement applied with one service that
attaches and a second whose attach raises a generic exception. -/
theorem C2_amended_witness :
    register_prometheus (fun _ j => if j == 0 then none else some Exn.error)
        ([svcDN] ++ svcNN :: []) 3
      = ((if Exn.error = Exn.keyboardInterrupt then LoopResult.exitedZero
          else LoopResult.returnedAfterTraceback),
         [svcDN].map (fun p => { p with flag := false }) ++ svcNN :: [],
         ([svcDN] : List Service).length + 1) :=
  C2_amended_tick_exception_terminates (fun _ j => if j == 0 then none else some Exn.error)
    [svcDN] [] svcNN 3 (by decide) Exn.error
    (by decide)
    (by
      intro j hj
      have hj0 : j = 0 := by simpa using Nat.lt_one_iff.mp (by simpa using hj)
      subst hj0
      rfl)
    (by decide)
    (by decide)

end HdExporter
